import Mathlib

/-!
Shallow embedding of the `NetworkInterceptionService` class from
`browser-tools-mcp/browser-tools-server/browser-connector-extended.js`
(the request-interception and cooperative-resolution pipeline), together
with proofs of the specification claims about it.

JavaScript `Map` iteration order is insertion order, so the handler
registry is modelled as an association list in insertion order; the
mutable service fields become a `ServiceState` record threaded
explicitly.  The asynchronous delay inside the throttle handler is
modelled as an explicit `slept` duration carried in the handler's
output.  All definitions are computable so that concrete scenarios
evaluate by `decide` / `rfl`.
-/

namespace MCPTools

/-- Header map (JS object of string keys/values), in insertion order. -/
abbrev Headers := List (String × String)

/-- Continue-request overrides, as forwarded to
`interceptedRequest.continue(overrides, priority)`; the repository's
handlers only ever populate the `headers` field. -/
structure Overrides where
  headers : Headers
deriving DecidableEq, Repr

/-- The synthetic response payload passed to
`interceptedRequest.respond(response, priority)`. -/
structure MockResponse where
  status : Nat
  headers : Headers
  body : String
deriving DecidableEq, Repr

/-- The `requestData` snapshot built at the top of `handleRequest`:
url, method, headers, postData, resourceType; `continueOverrides` models
the driver's `interceptedRequest.continueRequestOverrides()` value
(`none` for a request with no previously-set overrides). -/
structure RequestData where
  url : String
  method : String
  headers : Headers
  postData : Option String
  resourceType : String
  continueOverrides : Option Overrides
deriving DecidableEq, Repr

/-- The value a handler returns: `null` (defer to the next handler),
or an object with `action` ∈ {abort, continue, respond} and the
corresponding optional payloads, exactly the shapes produced by the
repository's handler constructors. -/
inductive HandlerResult where
  | null : HandlerResult
  | abort (reason : Option String) : HandlerResult
  | cont (overrides : Option Overrides) : HandlerResult
  | respond (response : MockResponse) : HandlerResult
deriving DecidableEq, Repr

/-- What one `await handler(...)` call produced: the time it spent
suspended (`await new Promise(setTimeout ...)` inside the throttle
handler; 0 everywhere else) and its returned value. -/
structure HandlerOutput where
  slept : Nat
  result : HandlerResult
deriving DecidableEq, Repr

/-- A registered intercept handler: may throw (`Except.error` with the
error message) or return a `HandlerOutput`. -/
abbrev Handler := RequestData → Except String HandlerOutput

/-- The non-priority part of a terminal resolution applied through the
driver primitive (`abort` / `continue` / `respond`). -/
inductive ResolutionAct where
  | abort (reason : String) : ResolutionAct
  | cont (overrides : Option Overrides) : ResolutionAct
  | respond (response : MockResponse) : ResolutionAct
deriving DecidableEq, Repr

/-- One application of the driver's resolution primitive: the act plus
the `this.priority` tie-break value forwarded as the second argument. -/
structure Decision where
  act : ResolutionAct
  tieBreak : Int
deriving DecidableEq, Repr

/-- Entry of `this.blockedRequests`: `{ ...requestData, reason: result.reason }`. -/
structure BlockedEntry where
  request : RequestData
  reason : Option String
deriving DecidableEq, Repr

/-- Entry of `this.modifiedRequests`: either
`{ ...requestData, modifications: result.overrides }` (continue with
overrides) or `{ ...requestData, response: result.response }` (respond). -/
inductive ModifiedEntry where
  | modified (request : RequestData) (modifications : Overrides) : ModifiedEntry
  | responded (request : RequestData) (response : MockResponse) : ModifiedEntry
deriving DecidableEq, Repr

/-- Entry of `this.responseLog` built in `handleResponse`. -/
structure ResponseData where
  url : String
  status : Nat
  headers : Headers
deriving DecidableEq, Repr

/-- JavaScript `a || b` for an optional string: `null`/`undefined` and
the empty string are falsy. -/
def jsOrString (a : Option String) (b : String) : String :=
  match a with
  | none => b
  | some s => if s = "" then b else s

/-- The mutable fields of `NetworkInterceptionService`, plus the
driver-side observable effects of `enableInterception`
(`requestListeners` / `responseListeners` count the `page.on('request')`
/ `page.on('response')` subscriptions; `requestInterceptionSet` is the
`page.setRequestInterception` flag). -/
structure ServiceState where
  isInitialized : Bool
  interceptionEnabled : Bool
  requestInterceptionSet : Bool
  requestListeners : Nat
  responseListeners : Nat
  interceptHandlers : List (String × Handler)
  requestLog : List RequestData
  responseLog : List ResponseData
  blockedRequests : List BlockedEntry
  modifiedRequests : List ModifiedEntry
  priority : Int

/-- The fresh state built by the constructor. -/
def initialState : ServiceState :=
  { isInitialized := false
    interceptionEnabled := false
    requestInterceptionSet := false
    requestListeners := 0
    responseListeners := 0
    interceptHandlers := []
    requestLog := []
    responseLog := []
    blockedRequests := []
    modifiedRequests := []
    priority := 0 }

/-- Outcome of the handler loop of `handleRequest` for one request:
every resolution applied through the driver primitive (in order), the
entries pushed onto `blockedRequests` / `modifiedRequests`, the ids of
handlers whose error was caught and recorded (`console.error`), the ids
consulted in order, and the total time spent suspended inside `decide`
calls. -/
structure RunOutcome where
  applied : List Decision
  blocked : List BlockedEntry
  modified : List ModifiedEntry
  errors : List String
  consulted : List String
  slept : Nat

/-- The `for (const [id, handler] of this.interceptHandlers)` loop of
`handleRequest`, followed by the trailing default
`interceptedRequest.continue(interceptedRequest.continueRequestOverrides(), this.priority)`.
Each branch mirrors the corresponding `switch` case. -/
def runHandlers (priority : Int) (req : RequestData) :
    List (String × Handler) → RunOutcome
  | [] =>
    { applied := [⟨.cont req.continueOverrides, priority⟩]
      blocked := [], modified := [], errors := [], consulted := [], slept := 0 }
  | (id, h) :: rest =>
    match h req with
    | .error _ =>
      let o := runHandlers priority req rest
      { o with errors := id :: o.errors, consulted := id :: o.consulted }
    | .ok out =>
      match out.result with
      | .null =>
        let o := runHandlers priority req rest
        { o with consulted := id :: o.consulted, slept := out.slept + o.slept }
      | .abort reason =>
        { applied := [⟨.abort (jsOrString reason "failed"), priority⟩]
          blocked := [⟨req, reason⟩], modified := [], errors := []
          consulted := [id], slept := out.slept }
      | .cont overrides =>
        { applied := [⟨.cont (overrides <|> req.continueOverrides), priority⟩]
          blocked := []
          modified := match overrides with
            | some ov => [.modified req ov]
            | none => []
          errors := [], consulted := [id], slept := out.slept }
      | .respond response =>
        { applied := [⟨.respond response, priority⟩]
          blocked := [], modified := [.responded req response]
          errors := [], consulted := [id], slept := out.slept }

/-- `this.requestLog.push(requestData)`. -/
def pushRequestLog (st : ServiceState) (e : RequestData) : ServiceState :=
  { st with requestLog := st.requestLog ++ [e] }

/-- `this.responseLog.push(responseData)`. -/
def pushResponseLog (st : ServiceState) (e : ResponseData) : ServiceState :=
  { st with responseLog := st.responseLog ++ [e] }

/-- `this.blockedRequests.push(entry)`. -/
def pushBlockedLog (st : ServiceState) (e : BlockedEntry) : ServiceState :=
  { st with blockedRequests := st.blockedRequests ++ [e] }

/-- `this.modifiedRequests.push(entry)`. -/
def pushModifiedLog (st : ServiceState) (e : ModifiedEntry) : ServiceState :=
  { st with modifiedRequests := st.modifiedRequests ++ [e] }

/-- Result of one `handleRequest` call. -/
structure HandleResult where
  state : ServiceState
  applied : List Decision
  errors : List String
  consulted : List String
  slept : Nat

/-- `handleRequest(interceptedRequest)`: build `requestData`, push it
onto the request log, return early when
`interceptedRequest.isInterceptResolutionHandled()` is already true,
otherwise run the handler loop and record its effects. -/
def handleRequest (st : ServiceState) (req : RequestData)
    (alreadyHandled : Bool) : HandleResult :=
  let st1 := pushRequestLog st req
  if alreadyHandled then
    { state := st1, applied := [], errors := [], consulted := [], slept := 0 }
  else
    let o := runHandlers st.priority req st.interceptHandlers
    let st2 := o.blocked.foldl pushBlockedLog st1
    let st3 := o.modified.foldl pushModifiedLog st2
    { state := st3
      applied := o.applied, errors := o.errors, consulted := o.consulted
      slept := o.slept }

/-- `handleResponse(response)`. -/
def handleResponse (st : ServiceState) (resp : ResponseData) : ServiceState :=
  pushResponseLog st resp

/-- JavaScript `Map.prototype.set`: replace the value in place when the
key is present (keeping its insertion position), otherwise append. -/
def mapSet (m : List (String × Handler)) (id : String) (h : Handler) :
    List (String × Handler) :=
  if m.any (fun p => p.1 = id) then
    m.map (fun p => if p.1 = id then (id, h) else p)
  else
    m ++ [(id, h)]

/-- The JSON object returned by `addInterceptHandler`. -/
structure AddResult where
  success : Bool
  handlerId : String
  totalHandlers : Nat
deriving DecidableEq, Repr

/-- `addInterceptHandler(id, handler)`: `this.interceptHandlers.set(id, handler)`
and an unconditional success result. -/
def addInterceptHandler (st : ServiceState) (id : String) (h : Handler) :
    ServiceState × AddResult :=
  let m := mapSet st.interceptHandlers id h
  ({ st with interceptHandlers := m },
   { success := true, handlerId := id, totalHandlers := m.length })

/-- The `initialize()` method (observable state part: sets `isInitialized`). -/
def initService (st : ServiceState) : ServiceState :=
  if st.isInitialized then st else { st with isInitialized := true }

/-- `enableInterception()` success path (no navigation URL): initialize
if needed, `page.setRequestInterception(true)`, set
`interceptionEnabled`, and register one more `page.on('request')` and
`page.on('response')` listener. -/
def enableInterception (st : ServiceState) : ServiceState :=
  let st := initService st
  { st with
    requestInterceptionSet := true
    interceptionEnabled := true
    requestListeners := st.requestListeners + 1
    responseListeners := st.responseListeners + 1 }

/-- `disableInterception()` success path:
`page.setRequestInterception(false)`, clear `interceptionEnabled`, and
`this.interceptHandlers.clear()`.  Logs and listeners are untouched. -/
def disableInterception (st : ServiceState) : ServiceState :=
  { st with
    requestInterceptionSet := false
    interceptionEnabled := false
    interceptHandlers := [] }

/-- `clearLogs()`: reset all four logs to fresh empty arrays. -/
def clearLogs (st : ServiceState) : ServiceState :=
  { st with
    requestLog := []
    responseLog := []
    blockedRequests := []
    modifiedRequests := [] }

/-- The `{ entries, count }` shape shared by the four log getters. -/
structure LogView (α : Type) where
  entries : List α
  count : Nat
deriving DecidableEq, Repr

/-- `getRequestLog()`. -/
def getRequestLog (st : ServiceState) : LogView RequestData :=
  { entries := st.requestLog, count := st.requestLog.length }

/-- `getResponseLog()`. -/
def getResponseLog (st : ServiceState) : LogView ResponseData :=
  { entries := st.responseLog, count := st.responseLog.length }

/-- `getBlockedRequests()`. -/
def getBlockedRequests (st : ServiceState) : LogView BlockedEntry :=
  { entries := st.blockedRequests, count := st.blockedRequests.length }

/-- `getModifiedRequests()`. -/
def getModifiedRequests (st : ServiceState) : LogView ModifiedEntry :=
  { entries := st.modifiedRequests, count := st.modifiedRequests.length }

/-- `setInterceptResolutionConfig(priority)`. -/
def setInterceptResolutionConfig (st : ServiceState) (priority : Int) :
    ServiceState :=
  { st with priority := priority }

/-- A URL pattern as the repository accepts it: a literal string checked
with `String.prototype.includes` (case-sensitive substring containment)
or a `RegExp`, modelled by its `test` predicate on the full URL. -/
inductive Pattern where
  | str (s : String) : Pattern
  | regex (test : String → Bool) : Pattern

/-- Whether `pat` occurs at the start of `hay` (character-exact). -/
def startsWithChars : List Char → List Char → Bool
  | _, [] => true
  | [], _ :: _ => false
  | a :: as, b :: bs => a = b && startsWithChars as bs

/-- Whether `pat` occurs contiguously anywhere in `hay`. -/
def containsChars (pat : List Char) : List Char → Bool
  | [] => pat.isEmpty
  | a :: t => startsWithChars (a :: t) pat || containsChars pat t

/-- `url.includes(pat)`: case-sensitive contiguous substring containment. -/
def urlIncludes (url pat : String) : Bool :=
  containsChars pat.toList url.toList

/-- One pattern check against the full URL, the shape repeated in every
handler constructor (`typeof pattern === 'string'` branch vs
`instanceof RegExp` branch). -/
def patternTest (p : Pattern) (url : String) : Bool :=
  match p with
  | .str s => urlIncludes url s
  | .regex t => t url

/-- Body of the handler created by `blockRequests(patterns, reason)`:
loop over the patterns, abort with `reason` on the first match,
otherwise return `null` (defer). -/
def blockDecide (patterns : List Pattern) (reason : String) (url : String) :
    HandlerResult :=
  match patterns with
  | [] => .null
  | p :: rest =>
    if patternTest p url then .abort (some reason)
    else blockDecide rest reason url

/-- `blockRequests(patterns, reason)`: registers a blocking handler under
id `block-${Date.now()}`; `now` stands for the `Date.now()` call. -/
def blockRequests (st : ServiceState) (now : Nat) (patterns : List Pattern)
    (reason : String) : ServiceState × AddResult :=
  addInterceptHandler st ("block-" ++ toString now)
    (fun req => .ok ⟨0, blockDecide patterns reason req.url⟩)

/-- The handler created by `throttleRequests(urlPattern, delay)`: on a
URL match it awaits `setTimeout(delay)` and then returns
`{ action: 'continue' }`; otherwise it returns `null`. -/
def throttleHandler (urlPattern : Pattern) (delay : Nat) : Handler :=
  fun req =>
    if patternTest urlPattern req.url then .ok ⟨delay, .cont none⟩
    else .ok ⟨0, .null⟩

/-- `throttleRequests(urlPattern, delay)`: registers the throttling
handler under id `throttle-${Date.now()}`. -/
def throttleRequests (st : ServiceState) (now : Nat) (urlPattern : Pattern)
    (delay : Nat) : ServiceState × AddResult :=
  addInterceptHandler st ("throttle-" ++ toString now)
    (throttleHandler urlPattern delay)

/-- Sequential model of the driver delivering one request event to `n`
registered `page.on('request')` listeners: each listener runs
`handleRequest`; once some listener has applied a resolution, every
later listener sees `isInterceptResolutionHandled() = true`.  Returns
the final state and the total number of resolutions applied. -/
def dispatchListeners :
    Nat → ServiceState → RequestData → Bool → ServiceState × Nat
  | 0, st, _, _ => (st, 0)
  | n + 1, st, req, handled =>
    let r := handleRequest st req handled
    let rest := dispatchListeners n r.state req (handled || !r.applied.isEmpty)
    (rest.1, r.applied.length + rest.2)

/-- One request observed by the page: delivered to every currently
registered request listener in registration order. -/
def observeRequest (st : ServiceState) (req : RequestData)
    (alreadyHandled : Bool) : ServiceState × Nat :=
  dispatchListeners st.requestListeners st req alreadyHandled

/-- `this.interceptHandlers.get(id)` (used to characterise replacement). -/
def mapGet (m : List (String × Handler)) (id : String) : Option Handler :=
  (m.find? (fun p => p.1 = id)).map Prod.snd

/-- Whether a handler, called on this request, yields a terminal result
(abort / continue / respond) rather than throwing or returning `null`. -/
def isDeciding (h : Handler) (req : RequestData) : Bool :=
  match h req with
  | .error _ => false
  | .ok out =>
    match out.result with
    | .null => false
    | _ => true

/-- A convenient concrete request. -/
def exampleRequest (url : String) : RequestData :=
  { url := url, method := "GET", headers := [], postData := none
    resourceType := "image", continueOverrides := none }


/-! ### Concrete states used in scenarios and witnesses -/

/-- A handler that always defers (`return null`). -/
def nullHandler : Handler := fun _ => .ok ⟨0, .null⟩

/-- A handler that always aborts with reason `"x"`. -/
def abortAllHandler : Handler := fun _ => .ok ⟨0, .abort (some "x")⟩

/-- A handler that always throws. -/
def throwingHandler : Handler := fun _ => .error "boom"

/-- Registry `[n1 ↦ defer, d1 ↦ abort]`. -/
def c1State : ServiceState :=
  (addInterceptHandler
    (addInterceptHandler initialState "n1" nullHandler).1 "d1" abortAllHandler).1

/-- Registry `[h1 ↦ defer]`, the base for duplicate installation. -/
def c3Base : ServiceState :=
  (addInterceptHandler initialState "h1" nullHandler).1

/-- Registry `[bad ↦ throwing, good ↦ abort]`. -/
def c4State : ServiceState :=
  (addInterceptHandler
    (addInterceptHandler initialState "bad" throwingHandler).1
    "good" abortAllHandler).1

/-- A throttle policy for `".png"` registered before a block policy for
the same pattern. -/
def c5State : ServiceState :=
  (blockRequests
    (throttleRequests (enableInterception initialState) 1
      (Pattern.str ".png") 1000).1
    2 [Pattern.str ".png"] "blocked").1

/-- A single `block-by-pattern` policy for `".png"`. -/
def scenarioBlockPng : ServiceState :=
  (blockRequests (enableInterception initialState) 1
    [Pattern.str ".png"] "blocked").1

/-! ### General lemmas about the resolution pipeline -/


/-- The handler loop applies exactly one resolution. -/
theorem runHandlers_applied_length (priority : Int) (req : RequestData)
    (hs : List (String × Handler)) :
    (runHandlers priority req hs).applied.length = 1 := by
  induction hs with
  | nil => rfl
  | cons p rest ih =>
    obtain ⟨id, h⟩ := p
    cases hr : h req with
    | error e => simp [runHandlers, hr, ih]
    | ok out =>
      cases hres : out.result with
      | null => simp [runHandlers, hr, hres, ih]
      | abort r => simp [runHandlers, hr, hres]
      | cont o => simp [runHandlers, hr, hres]
      | respond r => simp [runHandlers, hr, hres]

theorem handleRequest_false_applied (st : ServiceState) (req : RequestData) :
    (handleRequest st req false).applied
      = (runHandlers st.priority req st.interceptHandlers).applied := rfl

theorem handleRequest_true_applied (st : ServiceState) (req : RequestData) :
    (handleRequest st req true).applied = [] := rfl

theorem handleRequest_false_consulted (st : ServiceState) (req : RequestData) :
    (handleRequest st req false).consulted
      = (runHandlers st.priority req st.interceptHandlers).consulted := rfl

theorem handleRequest_false_errors (st : ServiceState) (req : RequestData) :
    (handleRequest st req false).errors
      = (runHandlers st.priority req st.interceptHandlers).errors := rfl

/-- The consulted ids are always an initial segment of the registry ids. -/
theorem runHandlers_consulted_take (priority : Int) (req : RequestData)
    (hs : List (String × Handler)) :
    ∃ n, (runHandlers priority req hs).consulted = (hs.map Prod.fst).take n := by
  induction hs with
  | nil => exact ⟨0, rfl⟩
  | cons p rest ih =>
    obtain ⟨id, h⟩ := p
    obtain ⟨n, hn⟩ := ih
    cases hr : h req with
    | error e => exact ⟨n + 1, by simp [runHandlers, hr, hn]⟩
    | ok out =>
      cases hres : out.result with
      | null => exact ⟨n + 1, by simp [runHandlers, hr, hres, hn]⟩
      | abort r => exact ⟨1, by simp [runHandlers, hr, hres]⟩
      | cont o => exact ⟨1, by simp [runHandlers, hr, hres]⟩
      | respond r => exact ⟨1, by simp [runHandlers, hr, hres]⟩



theorem isDeciding_of_error {h : Handler} {req : RequestData} {e : String}
    (hr : h req = Except.error e) : isDeciding h req = false := by
  unfold isDeciding; rw [hr]

theorem isDeciding_of_null {h : Handler} {req : RequestData} {out : HandlerOutput}
    (hr : h req = Except.ok out) (hres : out.result = HandlerResult.null) :
    isDeciding h req = false := by
  simp [isDeciding, hr, hres]

theorem isDeciding_of_terminal {h : Handler} {req : RequestData} {out : HandlerOutput}
    (hr : h req = Except.ok out) (hres : out.result ≠ HandlerResult.null) :
    isDeciding h req = true := by
  cases hq : out.result with
  | null => exact absurd hq hres
  | abort r => simp [isDeciding, hr, hq]
  | cont o => simp [isDeciding, hr, hq]
  | respond r => simp [isDeciding, hr, hq]

/-- Changing the configured priority changes neither the consulted ids
nor the act part of the applied resolutions; it only appears as the
forwarded tie-break value. -/
theorem runHandlers_priority_spec (p₁ p₂ : Int) (req : RequestData)
    (hs : List (String × Handler)) :
    (runHandlers p₁ req hs).consulted = (runHandlers p₂ req hs).consulted ∧
    (runHandlers p₁ req hs).applied.map Decision.act
      = (runHandlers p₂ req hs).applied.map Decision.act ∧
    ∀ d ∈ (runHandlers p₁ req hs).applied, d.tieBreak = p₁ := by
  induction hs with
  | nil => simp [runHandlers]
  | cons p rest ih =>
    obtain ⟨id, h⟩ := p
    obtain ⟨ihc, iha, iht⟩ := ih
    cases hr : h req with
    | error e =>
      refine ⟨by simp [runHandlers, hr, ihc], by simp [runHandlers, hr, iha], ?_⟩
      simp only [runHandlers, hr]
      exact iht
    | ok out =>
      cases hres : out.result with
      | null =>
        refine ⟨by simp [runHandlers, hr, hres, ihc],
                by simp [runHandlers, hr, hres, iha], ?_⟩
        simp only [runHandlers, hr, hres]
        exact iht
      | abort r => simp [runHandlers, hr, hres]
      | cont o => simp [runHandlers, hr, hres]
      | respond r => simp [runHandlers, hr, hres]

/-- Handlers that throw are recorded and skipped: the outcome is that of
the remaining handlers alone. -/
theorem runHandlers_skip_throwing (pr : Int) (req : RequestData)
    (hs₁ rest : List (String × Handler))
    (hthrow : ∀ x ∈ hs₁, ∃ e, x.2 req = Except.error e) :
    (runHandlers pr req (hs₁ ++ rest)).applied
        = (runHandlers pr req rest).applied ∧
    (runHandlers pr req (hs₁ ++ rest)).errors
        = hs₁.map Prod.fst ++ (runHandlers pr req rest).errors ∧
    (runHandlers pr req (hs₁ ++ rest)).consulted
        = hs₁.map Prod.fst ++ (runHandlers pr req rest).consulted := by
  induction hs₁ with
  | nil => simp
  | cons p t ih =>
    obtain ⟨id, h⟩ := p
    obtain ⟨e, he⟩ := hthrow (id, h) (by simp)
    have he' : h req = Except.error e := he
    have ih' := ih (fun x hx => hthrow x (by simp [hx]))
    simp [runHandlers, he', ih'.1, ih'.2.1, ih'.2.2]

/-- Once the first deciding handler is reached, iteration stops there:
the consulted ids are exactly the non-deciding ones before it plus its
own id; handlers registered after it are never consulted. -/
theorem runHandlers_first_decider (pr : Int) (req : RequestData)
    (hs₁ : List (String × Handler)) (id : String) (h : Handler)
    (hs₂ : List (String × Handler))
    (h₁ : ∀ x ∈ hs₁, isDeciding x.2 req = false)
    (h₂ : isDeciding h req = true) :
    (runHandlers pr req (hs₁ ++ (id, h) :: hs₂)).consulted
      = hs₁.map Prod.fst ++ [id] := by
  induction hs₁ with
  | nil =>
    simp only [List.nil_append, List.map_nil]
    cases hr : h req with
    | error e => rw [isDeciding_of_error hr] at h₂; simp at h₂
    | ok out =>
      cases hres : out.result with
      | null => rw [isDeciding_of_null hr hres] at h₂; simp at h₂
      | abort r => simp [runHandlers, hr, hres]
      | cont o => simp [runHandlers, hr, hres]
      | respond r => simp [runHandlers, hr, hres]
  | cons p t ih =>
    obtain ⟨pid, ph⟩ := p
    have hp : isDeciding ph req = false := h₁ (pid, ph) (by simp)
    have ih' := ih (fun x hx => h₁ x (by simp [hx]))
    cases hr : ph req with
    | error e => simp [runHandlers, hr, ih']
    | ok out =>
      cases hres : out.result with
      | null => simp [runHandlers, hr, hres, ih']
      | abort r =>
        rw [isDeciding_of_terminal hr (by simp [hres])] at hp; simp at hp
      | cont o =>
        rw [isDeciding_of_terminal hr (by simp [hres])] at hp; simp at hp
      | respond r =>
        rw [isDeciding_of_terminal hr (by simp [hres])] at hp; simp at hp



theorem foldl_pushBlockedLog_spec (l : List BlockedEntry) (st : ServiceState) :
    l.foldl pushBlockedLog st
      = { st with blockedRequests := st.blockedRequests ++ l } := by
  induction l generalizing st with
  | nil => simp
  | cons e t ih => simp [pushBlockedLog, ih]

theorem foldl_pushModifiedLog_spec (l : List ModifiedEntry) (st : ServiceState) :
    l.foldl pushModifiedLog st
      = { st with modifiedRequests := st.modifiedRequests ++ l } := by
  induction l generalizing st with
  | nil => simp
  | cons e t ih => simp [pushModifiedLog, ih]

theorem foldl_pushRequestLog_spec (l : List RequestData) (st : ServiceState) :
    l.foldl pushRequestLog st
      = { st with requestLog := st.requestLog ++ l } := by
  induction l generalizing st with
  | nil => simp
  | cons e t ih => simp [pushRequestLog, ih]

theorem foldl_pushResponseLog_spec (l : List ResponseData) (st : ServiceState) :
    l.foldl pushResponseLog st
      = { st with responseLog := st.responseLog ++ l } := by
  induction l generalizing st with
  | nil => simp
  | cons e t ih => simp [pushResponseLog, ih]

theorem handleRequest_state_requestLog (st : ServiceState) (req : RequestData)
    (handled : Bool) :
    (handleRequest st req handled).state.requestLog = st.requestLog ++ [req] := by
  cases handled <;>
    simp [handleRequest, pushRequestLog, foldl_pushBlockedLog_spec,
      foldl_pushModifiedLog_spec]

theorem dispatchListeners_handled_zero (n : Nat) (st : ServiceState)
    (req : RequestData) :
    (dispatchListeners n st req true).2 = 0 := by
  induction n generalizing st with
  | zero => rfl
  | succ n ih =>
    simp [dispatchListeners, handleRequest_true_applied, ih]

theorem dispatchListeners_fresh_once (n : Nat) (st : ServiceState)
    (req : RequestData) (hn : 0 < n) :
    (dispatchListeners n st req false).2 = 1 := by
  cases n with
  | zero => exact absurd hn (by simp)
  | succ m =>
    have h1 : (handleRequest st req false).applied.length = 1 := by
      rw [handleRequest_false_applied]
      exact runHandlers_applied_length st.priority req st.interceptHandlers
    have hne : (handleRequest st req false).applied.isEmpty = false := by
      cases hap : (handleRequest st req false).applied with
      | nil => rw [hap] at h1; simp at h1
      | cons a t => simp [hap]
    simp [dispatchListeners, hne, h1, dispatchListeners_handled_zero]

theorem find_map_replace (id : String) (h : Handler) :
    ∀ m : List (String × Handler), m.any (fun p => p.1 = id) = true →
    (m.map (fun p => if p.1 = id then (id, h) else p)).find?
        (fun p => p.1 = id) = some (id, h) := by
  intro m
  induction m with
  | nil => simp
  | cons a t ih =>
    intro hp
    by_cases hc : a.1 = id
    · simp [hc, List.find?]
    · have ht : t.any (fun p => p.1 = id) = true := by
        simpa [hc] using hp
      simp [List.find?, hc, ih ht]

theorem mapSet_present_ids (m : List (String × Handler)) (id : String)
    (h : Handler) (hp : m.any (fun p => p.1 = id) = true) :
    (mapSet m id h).map Prod.fst = m.map Prod.fst := by
  simp only [mapSet, hp, if_pos]
  rw [List.map_map]
  apply List.map_congr_left
  intro a _
  by_cases hc : a.1 = id <;> simp [hc]

theorem mapSet_present_get (m : List (String × Handler)) (id : String)
    (h : Handler) (hp : m.any (fun p => p.1 = id) = true) :
    mapGet (mapSet m id h) id = some h := by
  simp only [mapSet, hp, if_pos, mapGet]
  rw [find_map_replace id h m hp]
  rfl

theorem initService_requestListeners (st : ServiceState) :
    (initService st).requestListeners = st.requestListeners := by
  unfold initService
  split <;> rfl


/-! ### Claim theorems -/

/-- C1: for a request not yet resolved, the pipeline applies exactly one
terminal resolution through the driver primitive; once a deciding policy
is reached no later policy is consulted; a request whose resolution is
already handled (`isInterceptResolutionHandled`) is not resolved again —
zero resolutions are applied, even when several request listeners fire. -/
theorem handleRequest_exactly_one_resolution (st : ServiceState)
    (req : RequestData) :
    (handleRequest st req false).applied.length = 1 ∧
    (handleRequest st req true).applied = [] ∧
    (0 < st.requestListeners → (observeRequest st req false).2 = 1) ∧
    (observeRequest st req true).2 = 0 ∧
    (∀ hs₁ id h hs₂,
      st.interceptHandlers = hs₁ ++ (id, h) :: hs₂ →
      (∀ x ∈ hs₁, isDeciding x.2 req = false) →
      isDeciding h req = true →
      (handleRequest st req false).consulted = hs₁.map Prod.fst ++ [id]) := by
  refine ⟨?_, rfl, ?_, ?_, ?_⟩
  · rw [handleRequest_false_applied]
    exact runHandlers_applied_length st.priority req st.interceptHandlers
  · intro hn
    exact dispatchListeners_fresh_once st.requestListeners st req hn
  · exact dispatchListeners_handled_zero st.requestListeners st req
  · intro hs₁ id h hs₂ hreg hnd hd
    rw [handleRequest_false_consulted, hreg]
    exact runHandlers_first_decider st.priority req hs₁ id h hs₂ hnd hd

/-- Witness for C1 at a concrete state: two policies, the first
deferring and the second aborting; both are consulted and exactly one
resolution is applied. -/
theorem handleRequest_exactly_one_resolution_witness :
    (handleRequest c1State (exampleRequest "https://w/") false).applied.length = 1 ∧
    (handleRequest c1State (exampleRequest "https://w/") false).consulted
      = ["n1", "d1"] := by
  obtain ⟨h1, _, _, _, h5⟩ :=
    handleRequest_exactly_one_resolution c1State (exampleRequest "https://w/")
  refine ⟨h1, ?_⟩
  have := h5 [("n1", nullHandler)] "d1" abortAllHandler [] rfl
    (by intro x hx; rw [List.mem_singleton] at hx; subst hx; rfl) rfl
  simpa using this

/-- C2: policies are consulted in registration order (the consulted ids
are always an initial segment of the registry, in order); the configured
priority neither reorders consultation nor changes which resolution act
is applied — it is only forwarded as the tie-break argument of the
driver's resolution primitive. -/
theorem priority_is_only_tiebreak (st : ServiceState) (req : RequestData)
    (pr : Int) :
    (∃ n, (handleRequest st req false).consulted
        = (st.interceptHandlers.map Prod.fst).take n) ∧
    (handleRequest (setInterceptResolutionConfig st pr) req false).consulted
        = (handleRequest st req false).consulted ∧
    (handleRequest (setInterceptResolutionConfig st pr) req false).applied.map
        Decision.act
        = (handleRequest st req false).applied.map Decision.act ∧
    (∀ d ∈ (handleRequest st req false).applied, d.tieBreak = st.priority) := by
  refine ⟨?_, ?_, ?_, ?_⟩
  · rw [handleRequest_false_consulted]
    exact runHandlers_consulted_take st.priority req st.interceptHandlers
  · exact (runHandlers_priority_spec pr st.priority req st.interceptHandlers).1
  · exact (runHandlers_priority_spec pr st.priority req st.interceptHandlers).2.1
  · exact (runHandlers_priority_spec st.priority pr req st.interceptHandlers).2.2

/-- C3 counterexample: installing a second policy under the already
present id `h1` does not fail — the returned result has `success = true`
— and it does change the registry: the same request that resolved as
continue before the call resolves as abort after it. -/
theorem install_duplicate_succeeds_cex :
    (addInterceptHandler c3Base "h1" abortAllHandler).2.success = true ∧
    (handleRequest (addInterceptHandler c3Base "h1" abortAllHandler).1
        (exampleRequest "https://x/") false).applied.map Decision.act
      = [ResolutionAct.abort "x"] ∧
    (handleRequest c3Base (exampleRequest "https://x/") false).applied.map
        Decision.act
      = [ResolutionAct.cont none] := by decide

/-- C3 amended: installing a policy under an id already in the registry
succeeds and replaces the existing policy's function in place — the
registry keeps the same ids in the same order and the same size, and the
id now maps to the new function. -/
theorem install_duplicate_replaces (st : ServiceState) (id : String)
    (h : Handler)
    (hp : st.interceptHandlers.any (fun p => p.1 = id) = true) :
    (addInterceptHandler st id h).2.success = true ∧
    (addInterceptHandler st id h).1.interceptHandlers.map Prod.fst
        = st.interceptHandlers.map Prod.fst ∧
    (addInterceptHandler st id h).2.totalHandlers
        = st.interceptHandlers.length ∧
    mapGet (addInterceptHandler st id h).1.interceptHandlers id = some h := by
  refine ⟨rfl, mapSet_present_ids st.interceptHandlers id h hp, ?_,
    mapSet_present_get st.interceptHandlers id h hp⟩
  have := congrArg List.length (mapSet_present_ids st.interceptHandlers id h hp)
  simpa using this

/-- Witness for the amended C3 at a concrete duplicate installation. -/
theorem install_duplicate_replaces_witness :
    (addInterceptHandler c3Base "h1" abortAllHandler).2.success = true ∧
    (addInterceptHandler c3Base "h1" abortAllHandler).1.interceptHandlers.map
        Prod.fst = ["h1"] := by
  obtain ⟨h1, h2, _, _⟩ :=
    install_duplicate_replaces c3Base "h1" abortAllHandler (by decide)
  exact ⟨h1, by rw [h2]; rfl⟩

/-- C4: a policy whose `decide` throws has its error recorded, is
skipped, and iteration continues with the next registered policy: the
resolution applied is exactly that of the remaining policies alone, and
the request is still resolved exactly once (the error is fatal neither
to the request nor to the pipeline). -/
theorem throwing_policy_skipped (st : ServiceState) (req : RequestData)
    (hs₁ rest : List (String × Handler))
    (hreg : st.interceptHandlers = hs₁ ++ rest)
    (hthrow : ∀ x ∈ hs₁, ∃ e, x.2 req = Except.error e) :
    (handleRequest st req false).errors
        = hs₁.map Prod.fst ++ (runHandlers st.priority req rest).errors ∧
    (handleRequest st req false).applied
        = (runHandlers st.priority req rest).applied ∧
    (handleRequest st req false).applied.length = 1 := by
  have hsk := runHandlers_skip_throwing st.priority req hs₁ rest hthrow
  refine ⟨?_, ?_, ?_⟩
  · rw [handleRequest_false_errors, hreg]
    exact hsk.2.1
  · rw [handleRequest_false_applied, hreg]
    exact hsk.1
  · rw [handleRequest_false_applied]
    exact runHandlers_applied_length st.priority req st.interceptHandlers

/-- Witness for C4: a policy that always throws registered before an
aborting policy; the error is recorded and the later policy decides. -/
theorem throwing_policy_skipped_witness :
    (handleRequest c4State (exampleRequest "https://w/") false).errors
        = ["bad"] ∧
    (handleRequest c4State (exampleRequest "https://w/") false).applied.map
        Decision.act = [ResolutionAct.abort "x"] := by
  obtain ⟨he, ha, _⟩ := throwing_policy_skipped c4State
    (exampleRequest "https://w/") [("bad", throwingHandler)]
    [("good", abortAllHandler)] rfl
    (by intro x hx; rw [List.mem_singleton] at hx; subst hx
        exact ⟨"boom", rfl⟩)
  refine ⟨by rw [he]; rfl, by rw [ha]; rfl⟩

/-- C5 counterexample: with the throttle policy for `".png"` registered
before a block policy for `".png"`, a request to `logo.png` is resolved
as continue by the throttle policy itself right after the delay; the
later block policy is never consulted, contradicting the claimed
re-entry of the pipeline for later-registered policies (which would
have aborted here). -/
theorem throttle_no_rerun_cex :
    c5State.interceptHandlers.map Prod.fst = ["throttle-1", "block-2"] ∧
    (handleRequest c5State (exampleRequest "https://example.com/logo.png")
        false).consulted = ["throttle-1"] ∧
    "block-2" ∉ (handleRequest c5State
        (exampleRequest "https://example.com/logo.png") false).consulted ∧
    (handleRequest c5State (exampleRequest "https://example.com/logo.png")
        false).applied.map Decision.act = [ResolutionAct.cont none] ∧
    (handleRequest c5State (exampleRequest "https://example.com/logo.png")
        false).slept = 1000 := by decide

/-- C5 amended: when the throttle policy matches, its `decide` call
suspends the request for the configured duration and then itself
returns a terminal continue decision; the resolution is continue with
the driver's current overrides, the throttle policy is the only one
consulted, and policies registered after it are not re-run. -/
theorem throttle_terminal_continue (pat : Pattern) (delay : Nat)
    (req : RequestData) (id : String) (rest : List (String × Handler))
    (pr : Int) (hm : patternTest pat req.url = true) :
    (runHandlers pr req ((id, throttleHandler pat delay) :: rest)).slept
        = delay ∧
    (runHandlers pr req ((id, throttleHandler pat delay) :: rest)).consulted
        = [id] ∧
    (runHandlers pr req ((id, throttleHandler pat delay) :: rest)).applied
        = [⟨ResolutionAct.cont req.continueOverrides, pr⟩] := by
  have hh : throttleHandler pat delay req
      = Except.ok ⟨delay, HandlerResult.cont none⟩ := by
    simp [throttleHandler, hm]
  refine ⟨?_, ?_, ?_⟩ <;> simp [runHandlers, hh]

/-- Witness for the amended C5 at the concrete `.png` scenario. -/
theorem throttle_terminal_continue_witness :
    (runHandlers 0 (exampleRequest "https://example.com/logo.png")
        [("throttle-1", throttleHandler (Pattern.str ".png") 1000)]).slept
      = 1000 ∧
    (runHandlers 0 (exampleRequest "https://example.com/logo.png")
        [("throttle-1", throttleHandler (Pattern.str ".png") 1000)]).consulted
      = ["throttle-1"] := by
  obtain ⟨h1, h2, _⟩ := throttle_terminal_continue (Pattern.str ".png") 1000
    (exampleRequest "https://example.com/logo.png") "throttle-1" [] 0
    (by decide)
  exact ⟨h1, h2⟩

/-- C6 counterexample: a second `enableInterception` call does create a
second subscription to the driver's request event stream — after two
enable calls there are two request listeners and one observed request is
appended to the request log twice, versus once after a single enable. -/
theorem enable_twice_no_duplicate_cex :
    (enableInterception (enableInterception initialState)).requestListeners
        = 2 ∧
    (enableInterception initialState).requestListeners = 1 ∧
    (observeRequest (enableInterception (enableInterception initialState))
        (exampleRequest "https://a/") false).1.requestLog.length = 2 ∧
    (observeRequest (enableInterception initialState)
        (exampleRequest "https://a/") false).1.requestLog.length = 1 := by
  decide

/-- C6 amended: `disableInterception` twice in a row is a no-op the
second time; `enableInterception` twice leaves the session enabled but
registers a second request listener, so each observed request is logged
once per listener — the request is nevertheless resolved exactly once,
because every listener after the first sees it already resolved. -/
theorem enable_disable_idempotence_amended (st : ServiceState)
    (req : RequestData) :
    disableInterception (disableInterception st) = disableInterception st ∧
    (enableInterception (enableInterception st)).interceptionEnabled = true ∧
    (enableInterception (enableInterception st)).requestListeners
        = st.requestListeners + 2 ∧
    (observeRequest (enableInterception (enableInterception st)) req false).2
        = 1 := by
  have hl : (enableInterception (enableInterception st)).requestListeners
      = st.requestListeners + 2 := by
    simp [enableInterception, initService_requestListeners]
  refine ⟨rfl, rfl, hl, ?_⟩
  apply dispatchListeners_fresh_once
  rw [hl]
  omega

/-- C7: disabling interception clears the policy registry while leaving
all four audit logs exactly as they were (they are retained until the
caller clears them explicitly). -/
theorem disable_clears_registry_keeps_logs (st : ServiceState) :
    (disableInterception st).interceptHandlers = [] ∧
    (disableInterception st).requestLog = st.requestLog ∧
    (disableInterception st).responseLog = st.responseLog ∧
    (disableInterception st).blockedRequests = st.blockedRequests ∧
    (disableInterception st).modifiedRequests = st.modifiedRequests :=
  ⟨rfl, rfl, rfl, rfl, rfl⟩

/-- C8: for each of the four audit logs, appending entries and then
reading returns exactly those entries appended in order, with the count
equal to the length; after `clearLogs` every log reads back as the empty
log with count 0.  Reads are pure snapshots, so a clear cannot mutate or
drop entries returned by an earlier read. -/
theorem logs_round_trip (st : ServiceState) (reqs : List RequestData)
    (resps : List ResponseData) (bs : List BlockedEntry)
    (ms : List ModifiedEntry) :
    (getRequestLog (reqs.foldl pushRequestLog st)).entries
        = st.requestLog ++ reqs ∧
    (getRequestLog (reqs.foldl pushRequestLog st)).count
        = st.requestLog.length + reqs.length ∧
    (getResponseLog (resps.foldl pushResponseLog st)).entries
        = st.responseLog ++ resps ∧
    (getResponseLog (resps.foldl pushResponseLog st)).count
        = st.responseLog.length + resps.length ∧
    (getBlockedRequests (bs.foldl pushBlockedLog st)).entries
        = st.blockedRequests ++ bs ∧
    (getBlockedRequests (bs.foldl pushBlockedLog st)).count
        = st.blockedRequests.length + bs.length ∧
    (getModifiedRequests (ms.foldl pushModifiedLog st)).entries
        = st.modifiedRequests ++ ms ∧
    (getModifiedRequests (ms.foldl pushModifiedLog st)).count
        = st.modifiedRequests.length + ms.length ∧
    getRequestLog (clearLogs st) = ⟨[], 0⟩ ∧
    getResponseLog (clearLogs st) = ⟨[], 0⟩ ∧
    getBlockedRequests (clearLogs st) = ⟨[], 0⟩ ∧
    getModifiedRequests (clearLogs st) = ⟨[], 0⟩ := by
  refine ⟨?_, ?_, ?_, ?_, ?_, ?_, ?_, ?_, rfl, rfl, rfl, rfl⟩ <;>
    simp [getRequestLog, getResponseLog, getBlockedRequests,
      getModifiedRequests, foldl_pushRequestLog_spec,
      foldl_pushResponseLog_spec, foldl_pushBlockedLog_spec,
      foldl_pushModifiedLog_spec]

/-- C9: with `block-by-pattern` installed for the literal pattern
`".png"`, a request to `https://example.com/logo.png` is resolved as
abort and a request to `https://example.com/index.html` is resolved as
continue (allow, unmodified). -/
theorem block_png_scenario :
    (handleRequest scenarioBlockPng
        (exampleRequest "https://example.com/logo.png") false).applied.map
        Decision.act = [ResolutionAct.abort "blocked"] ∧
    (handleRequest scenarioBlockPng
        (exampleRequest "https://example.com/index.html") false).applied.map
        Decision.act = [ResolutionAct.cont none] := by decide

/-- C10: every observed request is appended to the request log: the log
after `handleRequest` is the old log plus this request, whatever the
decision turns out to be and also when the request was already resolved
by another consumer (in which case no resolution is applied here). -/
theorem request_logged_before_policies (st : ServiceState)
    (req : RequestData) (handled : Bool) :
    (handleRequest st req handled).state.requestLog
        = st.requestLog ++ [req] :=
  handleRequest_state_requestLog st req handled

end MCPTools
